import Mathlib

/-!
# wayland-circle-xdg.c : configure handshake and buffer lifecycle

A shallow embedding of `src/wayland-circle-xdg.c`.  The two global structs
`wayland` and `shm_data` become the record `State`; every call the program
makes into libwayland or libc is appended to `State.trace`, together with the
value of `wayland.width` / `wayland.height` at the moment of the call.  The
outcome of each fallible external call is an explicit argument (`Alloc`,
`SurfaceEnv`), so that every success/failure combination is covered.

Conventions
* `int`, `int32_t` are `Int`; the only arithmetic on them is in `create_buffer`,
  where the 32-bit products are reduced with `wrapInt32` (two's complement
  wrap-around: ISO C leaves signed overflow undefined, this is what the usual
  Linux targets compute) and the conversion to the 64-bit `size_t` is `toSizeT`.
* `uint32_t serial` is a `Nat`.
* A `wl_buffer *` is `Option Buffer`; `Buffer.width/height` are the arguments
  given to `wl_shm_pool_create_buffer` when the handle was created.
* `printf`/`perror` are not modelled; `draw_circle` is one call in the trace.
-/

namespace WaylandCircle

/-! ## Machine integers -/

/-- Value of a mathematical integer stored in a 32-bit C `int`. -/
def wrapInt32 (x : Int) : Int := (x + 2147483648) % 4294967296 - 2147483648

/-- Conversion of a C `int` to the 64-bit unsigned `size_t`. -/
def toSizeT (x : Int) : Nat := (x % 18446744073709551616).toNat

/-! ## Data model -/

/-- Handle `struct wl_buffer *` (non-NULL), with the dimensions it was created with. -/
structure Buffer where
  id : Nat
  width : Int
  height : Int
deriving DecidableEq, Repr

/-- Value of `shm_data.data`: NULL after `memset`, `MAP_FAILED`, or a mapping. -/
inductive MapPtr where
  | null
  | mapFailed
  | addr (n : Nat)
deriving DecidableEq, Repr

/-- Global `shm_data`. -/
structure ShmData where
  data : MapPtr
  size : Nat
deriving DecidableEq, Repr

/-- Calls into libc / libwayland made by the program (arguments as passed). -/
inductive Action where
  | createBufferCall (width height : Int)
  | memfdCreate
  | mkstemp
  | unlink
  | ftruncate (size : Nat)
  | closeFd
  | mmap (size : Nat)
  | shmCreatePool (size : Nat)
  | poolCreateBuffer (offset width height stride : Int)
  | poolDestroy
  | bufferDestroy (b : Buffer)
  | drawCircle (data : MapPtr) (width height : Int)
  | attach (b : Buffer)
  | damage (x y width height : Int)
  | commit
  | pong (serial : Nat)
  | ackConfigure (serial : Nat)
  | compositorCreateSurface
  | getXdgSurface
  | getToplevel
  | setTitle
  | setMinSize (width height : Int)
deriving DecidableEq, Repr

/-- One entry of the trace: the call and `wayland.width/height` when it was made. -/
structure Issued where
  act : Action
  width : Int
  height : Int
deriving DecidableEq, Repr

/-- Globals `wayland` (the fields the handlers read or write) and `shm_data`,
plus the trace of calls and a counter for fresh handles. -/
structure State where
  buffer : Option Buffer
  width : Int
  height : Int
  running : Bool
  last_serial : Nat
  shm_data : ShmData
  nextId : Nat
  trace : List Issued
deriving DecidableEq, Repr

/-- Result of `memfd_create`: a descriptor, failure with `ENOSYS`, other failure. -/
inductive MemfdResult where
  | ok
  | enosys
  | error
deriving DecidableEq, Repr

/-- Outcomes of the fallible calls inside one `create_buffer` invocation. -/
structure Alloc where
  memfd : MemfdResult
  mkstempOk : Bool
  ftruncateOk : Bool
  mmapOk : Bool
  poolOk : Bool
  bufferOk : Bool
deriving DecidableEq, Repr

/-- Events delivered by `wl_display_roundtrip` / `wl_display_dispatch`, and the
asynchronous signal.  A toplevel configure carries the outcome of the
`create_buffer` call its handler may make. -/
inductive Event where
  | ping (serial : Nat)
  | surfaceConfigure (serial : Nat)
  | toplevelConfigure (width height : Int) (o : Alloc)
  | close
  | signal
deriving DecidableEq, Repr

/-- One `wl_display_dispatch` call: the events it delivers and whether it
returned something other than `-1`. -/
structure Batch where
  events : List Event
  ok : Bool
deriving DecidableEq, Repr

/-- Outcomes of the object-creation calls at the start of `create_surface`. -/
structure SurfaceEnv where
  surfaceOk : Bool
  xdgSurfaceOk : Bool
  toplevelOk : Bool
deriving DecidableEq, Repr

/-! ## The program -/

/-- Append a call to the trace, stamped with the current `wayland.width/height`. -/
def emit (s : State) (a : Action) : State :=
  { s with trace := s.trace ++ [⟨a, s.width, s.height⟩] }

/-- State after `memset(&wayland,0,..)`, `memset(&shm_data,0,..)`, `wayland.running = 1`. -/
def initState : State :=
  { buffer := none, width := 0, height := 0, running := true, last_serial := 0,
    shm_data := ⟨MapPtr.null, 0⟩, nextId := 0, trace := [] }

/-- Handler `signal_handler`. -/
def signal_handler (s : State) : State :=
  { s with running := false }

/-- Tail of `create_shm_file` from label `done`: `ftruncate`, closing on failure. -/
def create_shm_file_done (s : State) (size : Nat) (o : Alloc) : State × Bool :=
  let s1 := emit s (Action.ftruncate size)
  if o.ftruncateOk then (s1, true) else (emit s1 Action.closeFd, false)

/-- Function `create_shm_file`; the Boolean is `fd >= 0`. -/
def create_shm_file (s : State) (size : Nat) (o : Alloc) : State × Bool :=
  let s1 := emit s Action.memfdCreate
  match o.memfd with
  | MemfdResult.ok => create_shm_file_done s1 size o
  | MemfdResult.error => (s1, false)
  | MemfdResult.enosys =>
    let s2 := emit s1 Action.mkstemp
    if o.mkstempOk then create_shm_file_done (emit s2 Action.unlink) size o
    else (s2, false)

/-- Local `stride` of `create_buffer`. -/
def bufferStride (width : Int) : Int := wrapInt32 (width * 4)

/-- Local `size` of `create_buffer`: the `int` product converted to `size_t`. -/
def bufferSize (width height : Int) : Nat :=
  toSizeT (wrapInt32 (bufferStride width * height))

/-- Function `create_buffer`; `none` is the NULL return. -/
def create_buffer (s : State) (width height : Int) (o : Alloc) : State × Option Buffer :=
  let stride := bufferStride width
  let size := bufferSize width height
  let s0 := emit s (Action.createBufferCall width height)
  let r := create_shm_file s0 size o
  if r.2 = false then (r.1, none)
  else
    let s1 := emit r.1 (Action.mmap size)
    if o.mmapOk = false then
      (emit { s1 with shm_data := { s1.shm_data with data := MapPtr.mapFailed } } Action.closeFd,
        none)
    else
      let s2 := { s1 with shm_data := ⟨MapPtr.addr s1.nextId, size⟩, nextId := s1.nextId + 1 }
      let s3 := emit s2 (Action.shmCreatePool size)
      if o.poolOk = false then (emit s3 Action.closeFd, none)
      else
        let s4 := emit s3 (Action.poolCreateBuffer 0 width height stride)
        if o.bufferOk = false then (emit (emit s4 Action.poolDestroy) Action.closeFd, none)
        else
          let s5 := emit (emit s4 Action.poolDestroy) Action.closeFd
          ({ s5 with nextId := s5.nextId + 1 }, some ⟨s5.nextId, width, height⟩)

/-- Handler `xdg_wm_base_ping`. -/
def xdg_wm_base_ping (s : State) (serial : Nat) : State :=
  emit s (Action.pong serial)

/-- Handler `xdg_surface_configure`. -/
def xdg_surface_configure (s : State) (serial : Nat) : State :=
  let s1 := emit { s with last_serial := serial } (Action.ackConfigure serial)
  match s1.buffer with
  | some b =>
    if s1.width > 0 ∧ s1.height > 0 then
      let s2 := emit s1 (Action.drawCircle s1.shm_data.data s1.width s1.height)
      let s3 := emit s2 (Action.attach b)
      let s4 := emit s3 (Action.damage 0 0 s3.width s3.height)
      emit s4 Action.commit
    else s1
  | none => s1

/-- Second half of `xdg_toplevel_configure` (from "Only recreate buffer if
dimensions change"), with the possibly substituted `width`, `height`. -/
def toplevel_resize (s : State) (width height : Int) (o : Alloc) : State :=
  if width ≠ s.width ∨ height ≠ s.height then
    let s1 := { s with width := width, height := height }
    let s2 := match s1.buffer with
      | some b => { emit s1 (Action.bufferDestroy b) with buffer := none }
      | none => s1
    let r := create_buffer s2 width height o
    { r.1 with buffer := r.2 }
  else s

/-- Handler `xdg_toplevel_configure`. -/
def xdg_toplevel_configure (s : State) (width height : Int) (o : Alloc) : State :=
  if width = 0 ∨ height = 0 then
    if s.width > 0 ∧ s.height > 0 then s
    else toplevel_resize s 400 400 o
  else toplevel_resize s width height o

/-- Handler `xdg_toplevel_close`. -/
def xdg_toplevel_close (s : State) : State :=
  { s with running := false }

/-- Listener dispatch: run the handler registered for the event. -/
def handle (s : State) (e : Event) : State :=
  match e with
  | Event.ping serial => xdg_wm_base_ping s serial
  | Event.surfaceConfigure serial => xdg_surface_configure s serial
  | Event.toplevelConfigure w h o => xdg_toplevel_configure s w h o
  | Event.close => xdg_toplevel_close s
  | Event.signal => signal_handler s

/-- Handlers run for the events of one roundtrip or dispatch call, in order. -/
def dispatch (s : State) (evs : List Event) : State :=
  evs.foldl handle s

/-- Last part of `create_surface`, from "Create initial buffer": `s5` is the
state the two roundtrips leave behind, `width`/`height` the arguments of
`create_surface`, `o` the outcome of the `create_buffer` call made here. -/
def create_surface_finish (s5 : State) (width height : Int) (o : Alloc) : State × Int :=
  let buffer_width := if s5.width > 0 then s5.width else width
  let buffer_height := if s5.height > 0 then s5.height else height
  let r : State × Option Buffer := match s5.buffer with
    | none =>
      let c := create_buffer s5 buffer_width buffer_height o
      ({ c.1 with buffer := c.2 }, c.2)
    | some b => (s5, some b)
  match r.2 with
  | none => (r.1, -1)
  | some b =>
    let s6 := emit r.1 (Action.drawCircle r.1.shm_data.data buffer_width buffer_height)
    let s7 := emit s6 (Action.attach b)
    let s8 := emit s7 (Action.damage 0 0 buffer_width buffer_height)
    (emit s8 Action.commit, 0)

/-- Function `create_surface`; `rt1`, `rt2` are the events delivered by its two
`wl_display_roundtrip` calls, `o` the outcome of its own `create_buffer` call.
The `Int` is the return value. -/
def create_surface (s : State) (width height : Int) (env : SurfaceEnv)
    (rt1 rt2 : List Event) (o : Alloc) : State × Int :=
  let s1 := emit { s with width := width, height := height } Action.compositorCreateSurface
  if env.surfaceOk = false then (s1, -1)
  else
    let s2 := emit s1 Action.getXdgSurface
    if env.xdgSurfaceOk = false then (s2, -1)
    else
      let s3 := emit s2 Action.getToplevel
      if env.toplevelOk = false then (s3, -1)
      else
        let s4 := emit (emit (emit s3 Action.setTitle) (Action.setMinSize width height))
          Action.commit
        create_surface_finish (dispatch (dispatch s4 rt1) rt2) width height o

/-- Main loop `while (wayland.running && wl_display_dispatch(..) != -1)`, run
over the dispatch calls that return within the observed execution. -/
def mainLoop (s : State) : List Batch → State
  | [] => s
  | b :: bs =>
    if s.running = true then
      let s1 := dispatch s b.events
      if b.ok = true then mainLoop s1 bs else s1
    else s

/-- Function `main` up to the end of the main loop (`initOk` is
`init_wayland() >= 0`); the `Int` is the exit code when `main` returns early,
and `0` otherwise. -/
def main (initOk : Bool) (env : SurfaceEnv) (rt1 rt2 : List Event) (o : Alloc)
    (batches : List Batch) : State × Int :=
  if initOk = false then (initState, 1)
  else
    let r := create_surface initState 400 400 env rt1 rt2 o
    if r.2 < 0 then (r.1, 1)
    else (mainLoop r.1 batches, 0)

/-! ## Observations on traces -/

/-- Arguments of the `create_buffer` calls recorded in a trace, in order. -/
def createCalls (t : List Issued) : List (Int × Int) :=
  t.filterMap fun i =>
    match i.act with
    | Action.createBufferCall w h => some (w, h)
    | _ => none

/-- Serials of the `xdg_surface_ack_configure` calls recorded in a trace, in order. -/
def ackSerials (t : List Issued) : List Nat :=
  t.filterMap fun i =>
    match i.act with
    | Action.ackConfigure n => some n
    | _ => none

/-- Buffers passed to `wl_buffer_destroy` in a trace, in order. -/
def destroyedBuffers (t : List Issued) : List Buffer :=
  t.filterMap fun i =>
    match i.act with
    | Action.bufferDestroy b => some b
    | _ => none

/-- The `wl_surface_attach` entries of a trace, in order. -/
def attaches (t : List Issued) : List Issued :=
  t.filter fun i =>
    match i.act with
    | Action.attach _ => true
    | _ => false

/-- An entry respects the size invariant: if it is a `wl_surface_attach`, the
attached buffer was created with the `wayland.width/height` current at the call. -/
def Issued.attachMatches (i : Issued) : Prop :=
  match i.act with
  | Action.attach b => b.width = i.width ∧ b.height = i.height
  | _ => True

instance (i : Issued) : Decidable i.attachMatches := by
  unfold Issued.attachMatches
  split <;> infer_instance

/-- All fallible steps of one `create_buffer` call succeed. -/
def Alloc.succeeds (o : Alloc) : Bool :=
  (o.memfd = MemfdResult.ok ∨ (o.memfd = MemfdResult.enosys ∧ o.mkstempOk = true))
    ∧ o.ftruncateOk = true ∧ o.mmapOk = true ∧ o.poolOk = true ∧ o.bufferOk = true

/-- Outcome in which every step succeeds through `memfd_create`. -/
def allocOk : Alloc := ⟨MemfdResult.ok, true, true, true, true, true⟩

/-- Outcome in which `ftruncate` fails. -/
def allocFail : Alloc := ⟨MemfdResult.ok, true, false, true, true, true⟩

/-- Outcome of the object-creation calls in which all succeed. -/
def envOk : SurfaceEnv := ⟨true, true, true⟩

/-- The event, if a toplevel configure, proposes a non-negative size. -/
def Event.sizeNonneg (e : Event) : Prop :=
  match e with
  | Event.toplevelConfigure w h _ => 0 ≤ w ∧ 0 ≤ h
  | _ => True

instance (e : Event) : Decidable e.sizeNonneg := by
  unfold Event.sizeNonneg
  split <;> infer_instance

/-- Every toplevel-configure event of the list proposes non-negative sizes. -/
def sizesNonneg (evs : List Event) : Prop :=
  ∀ e ∈ evs, e.sizeNonneg

instance (evs : List Event) : Decidable (sizesNonneg evs) := by
  unfold sizesNonneg
  infer_instance

/-- Size the handler `xdg_toplevel_configure` settles on for a proposal: the
proposal itself, or the current / default size when a component is zero. -/
def committedSize (s : State) (width height : Int) : Int × Int :=
  if width = 0 ∨ height = 0 then
    if s.width > 0 ∧ s.height > 0 then (s.width, s.height) else (400, 400)
  else (width, height)

/-- Serials carried by the surface-configure events of a list, in order. -/
def configureSerials (evs : List Event) : List Nat :=
  evs.filterMap fun e =>
    match e with
    | Event.surfaceConfigure n => some n
    | _ => none

/-! ## Auxiliary definitions for the statements -/

/-- A stretch of trace with no `create_buffer` call, ack, buffer destruction or attach. -/
def quiet (t : List Issued) : Prop :=
  createCalls t = [] ∧ ackSerials t = [] ∧ destroyedBuffers t = [] ∧
    attaches t = []

/-- The descriptor is obtained exactly when `memfd_create` or the `mkstemp`
fallback succeeds and `ftruncate` succeeds. -/
def Alloc.fileOk (o : Alloc) : Bool :=
  (o.memfd = MemfdResult.ok ∨ (o.memfd = MemfdResult.enosys ∧ o.mkstempOk = true))
    ∧ o.ftruncateOk = true

/-- Calls made by the resize path before `create_buffer`: the destruction of
the current buffer, if there is one. -/
def destroyPart (s : State) (w h : Int) : List Issued :=
  match s.buffer with
  | some b => [⟨Action.bufferDestroy b, w, h⟩]
  | none => []

/-- State when `main` enters its loop after an uneventful start-up: a 400x400
buffer is current. -/
def startState : State := (main true envOk [] [] allocOk []).1

/-- State in which `create_surface(400,400)` starts its roundtrips when called
from `main`: `wayland.width/height` are set and there is no buffer yet. -/
def setupState : State :=
  emit (emit (emit (emit (emit (emit { initState with width := 400, height := 400 }
    Action.compositorCreateSurface) Action.getXdgSurface) Action.getToplevel)
    Action.setTitle) (Action.setMinSize 400 400)) Action.commit

/-- State after a toplevel configure `(800,600)` whose `create_buffer` succeeded. -/
def state800 : State := xdg_toplevel_configure startState 800 600 allocOk

/-- State after a toplevel configure `(800,600)` whose `create_buffer` failed. -/
def stateFailed : State := xdg_toplevel_configure startState 800 600 allocFail

/-- Dimensions of the buffer currently backing the surface, if there is one. -/
def bufferDims (s : State) : Option (Int × Int) :=
  s.buffer.map fun b => (b.width, b.height)

/-- The handler run from `s` to `r` called `create_buffer`. -/
def callsCreateBuffer (s r : State) : Prop :=
  createCalls r.trace ≠ createCalls s.trace

instance (s r : State) : Decidable (callsCreateBuffer s r) := by
  unfold callsCreateBuffer
  infer_instance

/-- Calls made by the presentation branch of `xdg_surface_configure`. -/
def presentPart (s : State) : List Issued :=
  match s.buffer with
  | some b =>
    if s.width > 0 ∧ s.height > 0 then
      [⟨Action.drawCircle s.shm_data.data s.width s.height, s.width, s.height⟩,
       ⟨Action.attach b, s.width, s.height⟩,
       ⟨Action.damage 0 0 s.width s.height, s.width, s.height⟩,
       ⟨Action.commit, s.width, s.height⟩]
    else []
  | none => []

/-- Every attach recorded in the trace used a buffer of the then-current size. -/
def TraceOk (t : List Issued) : Prop := ∀ i ∈ t, i.attachMatches

/-- Invariant of the handlers when proposals are non-negative: the trace is
fine, a current buffer has the committed size, and the committed size is
positive. -/
def Inv (s : State) : Prop :=
  TraceOk s.trace ∧
  (∀ b, s.buffer = some b → b.width = s.width ∧ b.height = s.height) ∧
  0 < s.width ∧ 0 < s.height

/-- Weaker form of `Issued.attachMatches`: the sizes agree provided
`wayland.width/height` are both positive at the call. -/
def Issued.attachMatchesIfPositive (i : Issued) : Prop :=
  match i.act with
  | Action.attach b => 0 < i.width → 0 < i.height → b.width = i.width ∧ b.height = i.height
  | _ => True

instance (i : Issued) : Decidable i.attachMatchesIfPositive := by
  unfold Issued.attachMatchesIfPositive
  split <;> infer_instance

/-- Every attach recorded in the trace satisfies the weaker size condition. -/
def TraceWeak (t : List Issued) : Prop := ∀ i ∈ t, i.attachMatchesIfPositive

/-- Invariant of the handlers for arbitrary proposals: the trace satisfies the
weaker condition and a current buffer has the committed size whenever that
size is positive. -/
def InvWeak (s : State) : Prop :=
  TraceWeak s.trace ∧
  (∀ b, s.buffer = some b → 0 < s.width → 0 < s.height →
    b.width = s.width ∧ b.height = s.height)

/-! ## Basic facts about `emit` and trace observations -/

@[simp] theorem emit_buffer (s : State) (a : Action) : (emit s a).buffer = s.buffer := rfl
@[simp] theorem emit_width (s : State) (a : Action) : (emit s a).width = s.width := rfl
@[simp] theorem emit_height (s : State) (a : Action) : (emit s a).height = s.height := rfl
@[simp] theorem emit_running (s : State) (a : Action) : (emit s a).running = s.running := rfl
@[simp] theorem emit_last_serial (s : State) (a : Action) :
    (emit s a).last_serial = s.last_serial := rfl
@[simp] theorem emit_shm_data (s : State) (a : Action) : (emit s a).shm_data = s.shm_data := rfl
@[simp] theorem emit_nextId (s : State) (a : Action) : (emit s a).nextId = s.nextId := rfl
@[simp] theorem emit_trace (s : State) (a : Action) :
    (emit s a).trace = s.trace ++ [⟨a, s.width, s.height⟩] := rfl

theorem createCalls_append (t u : List Issued) :
    createCalls (t ++ u) = createCalls t ++ createCalls u := by
  simp [createCalls]

theorem ackSerials_append (t u : List Issued) :
    ackSerials (t ++ u) = ackSerials t ++ ackSerials u := by
  simp [ackSerials]

theorem destroyedBuffers_append (t u : List Issued) :
    destroyedBuffers (t ++ u) = destroyedBuffers t ++ destroyedBuffers u := by
  simp [destroyedBuffers]

theorem attaches_append (t u : List Issued) :
    attaches (t ++ u) = attaches t ++ attaches u := by
  simp [attaches]

/-! ## `create_buffer` -/

theorem create_shm_file_spec (s : State) (size : Nat) (o : Alloc) :
    (create_shm_file s size o).1.buffer = s.buffer ∧
    (create_shm_file s size o).1.width = s.width ∧
    (create_shm_file s size o).1.height = s.height ∧
    (create_shm_file s size o).1.running = s.running ∧
    (create_shm_file s size o).1.last_serial = s.last_serial ∧
    (create_shm_file s size o).1.shm_data = s.shm_data ∧
    (create_shm_file s size o).1.nextId = s.nextId ∧
    (∃ rest, (create_shm_file s size o).1.trace = s.trace ++ rest ∧ quiet rest) ∧
    (create_shm_file s size o).2 = o.fileOk := by
  rcases o with ⟨m, a, b, c, d, e⟩
  cases m <;> cases a <;> cases b <;>
    simp [create_shm_file, create_shm_file_done, Alloc.fileOk, quiet,
      createCalls, ackSerials, destroyedBuffers, attaches]

theorem Alloc.succeeds_eq (o : Alloc) :
    o.succeeds = (o.fileOk && o.mmapOk && o.poolOk && o.bufferOk) := by
  rcases o with ⟨m, a, b, c, d, e⟩
  cases m <;> cases a <;> cases b <;> cases c <;> cases d <;> cases e <;> rfl

/-- Effect of `create_buffer` on everything but `shm_data`: the `wayland`
fields are untouched, the trace grows by the call marker followed by a quiet
stretch, and a buffer is returned exactly when every step succeeds, with the
requested dimensions. -/
theorem create_buffer_spec (s : State) (w h : Int) (o : Alloc) :
    (create_buffer s w h o).1.buffer = s.buffer ∧
    (create_buffer s w h o).1.width = s.width ∧
    (create_buffer s w h o).1.height = s.height ∧
    (create_buffer s w h o).1.running = s.running ∧
    (create_buffer s w h o).1.last_serial = s.last_serial ∧
    (∃ rest, (create_buffer s w h o).1.trace
        = s.trace ++ ⟨Action.createBufferCall w h, s.width, s.height⟩ :: rest ∧ quiet rest) ∧
    (o.succeeds = false → (create_buffer s w h o).2 = none) ∧
    (o.succeeds = true →
      ∃ b, (create_buffer s w h o).2 = some b ∧ b.width = w ∧ b.height = h) := by
  obtain ⟨f1, f2, f3, f4, f5, f6, f7, ⟨rest, f8, q1, q2, q3, q4⟩, f9⟩ :=
    create_shm_file_spec (emit s (Action.createBufferCall w h)) (bufferSize w h) o
  rw [Alloc.succeeds_eq]
  unfold create_buffer
  simp only [f9]
  cases hf : o.fileOk <;> cases hm : o.mmapOk <;> cases hp : o.poolOk <;>
    cases hb : o.bufferOk <;>
    simp [f1, f2, f3, f4, f5, f8, quiet, q1, q2, q3, q4, createCalls_append,
      ackSerials_append, destroyedBuffers_append, attaches_append] <;>
    simp [createCalls, ackSerials, destroyedBuffers, attaches]

/-! ## `xdg_toplevel_configure` -/

theorem toplevel_resize_same (s : State) (w h : Int) (o : Alloc)
    (hw : w = s.width) (hh : h = s.height) : toplevel_resize s w h o = s := by
  simp [toplevel_resize, hw, hh]

theorem toplevel_resize_spec (s : State) (w h : Int) (o : Alloc)
    (hd : w ≠ s.width ∨ h ≠ s.height) :
    (toplevel_resize s w h o).width = w ∧
    (toplevel_resize s w h o).height = h ∧
    (toplevel_resize s w h o).running = s.running ∧
    (toplevel_resize s w h o).last_serial = s.last_serial ∧
    (∃ rest, (toplevel_resize s w h o).trace
        = s.trace ++ destroyPart s w h ++ ⟨Action.createBufferCall w h, w, h⟩ :: rest ∧
      quiet rest) ∧
    (o.succeeds = false → (toplevel_resize s w h o).buffer = none) ∧
    (o.succeeds = true →
      ∃ b, (toplevel_resize s w h o).buffer = some b ∧ b.width = w ∧ b.height = h) := by
  rcases s with ⟨buf, sw, sh, run, ls, shm, nid, tr⟩
  unfold toplevel_resize
  rw [if_pos hd]
  cases buf with
  | none =>
    obtain ⟨_, c2, c3, c4, c5, ⟨rest, c6, q⟩, c7, c8⟩ :=
      create_buffer_spec ⟨none, w, h, run, ls, shm, nid, tr⟩ w h o
    exact ⟨c2, c3, c4, c5, ⟨rest, by simpa [destroyPart] using c6, q⟩, c7, c8⟩
  | some b =>
    obtain ⟨_, c2, c3, c4, c5, ⟨rest, c6, q⟩, c7, c8⟩ :=
      create_buffer_spec
        ⟨none, w, h, run, ls, shm, nid, tr ++ [⟨Action.bufferDestroy b, w, h⟩]⟩ w h o
    exact ⟨c2, c3, c4, c5, ⟨rest, by simpa [destroyPart] using c6, q⟩, c7, c8⟩

theorem xdg_toplevel_configure_eq (s : State) (w h : Int) (o : Alloc) :
    xdg_toplevel_configure s w h o
      = toplevel_resize s (committedSize s w h).1 (committedSize s w h).2 o := by
  unfold xdg_toplevel_configure committedSize
  by_cases hz : w = 0 ∨ h = 0
  · by_cases hp : s.width > 0 ∧ s.height > 0
    · simp [hz, hp, toplevel_resize_same]
    · simp [hz, hp]
  · simp [hz]

theorem createCalls_destroyPart (s : State) (w h : Int) :
    createCalls (destroyPart s w h) = [] := by
  unfold destroyPart
  cases s.buffer <;> simp [createCalls]

theorem toplevel_resize_createCalls (s : State) (w h : Int) (o : Alloc)
    (hd : w ≠ s.width ∨ h ≠ s.height) :
    createCalls (toplevel_resize s w h o).trace = createCalls s.trace ++ [(w, h)] := by
  obtain ⟨_, _, _, _, ⟨rest, ht, q, _⟩, _⟩ := toplevel_resize_spec s w h o hd
  rw [ht, createCalls_append, createCalls_append, createCalls_destroyPart]
  simp [createCalls] at q ⊢
  exact q

/-- The state `setupState` is the one `create_surface(400,400)` hands to its
roundtrips. -/
theorem create_surface_from_setupState (rt1 rt2 : List Event) (o : Alloc) :
    create_surface initState 400 400 envOk rt1 rt2 o
      = create_surface_finish (dispatch (dispatch setupState rt1) rt2) 400 400 o := rfl

/-! ## Claims about `xdg_toplevel_configure` -/

/-- C3: in a state with `wayland.width > 0` and `wayland.height > 0`, a toplevel
configure `(0,0)` leaves `wayland.width`, `wayland.height`, `wayland.buffer`
and `shm_data` unchanged and makes no call at all, so neither
`wl_buffer_destroy` nor `create_buffer`. -/
theorem toplevel_configure_zero_keeps_state (s : State) (o : Alloc)
    (hw : s.width > 0) (hh : s.height > 0) :
    (xdg_toplevel_configure s 0 0 o).width = s.width ∧
    (xdg_toplevel_configure s 0 0 o).height = s.height ∧
    (xdg_toplevel_configure s 0 0 o).buffer = s.buffer ∧
    (xdg_toplevel_configure s 0 0 o).shm_data = s.shm_data ∧
    (xdg_toplevel_configure s 0 0 o).trace = s.trace ∧
    destroyedBuffers (xdg_toplevel_configure s 0 0 o).trace = destroyedBuffers s.trace ∧
    createCalls (xdg_toplevel_configure s 0 0 o).trace = createCalls s.trace := by
  have h : xdg_toplevel_configure s 0 0 o = s := by
    simp [xdg_toplevel_configure, hw, hh]
  simp [h]

/-- Scenario B for C3: committed `(800,600)` stays `(800,600)` with the same
buffer, mapping and trace. -/
theorem toplevel_configure_zero_keeps_state_witness :
    (state800.width > 0 ∧ state800.height > 0) ∧
    (xdg_toplevel_configure state800 0 0 allocOk).width = 800 ∧
    (xdg_toplevel_configure state800 0 0 allocOk).height = 600 ∧
    (xdg_toplevel_configure state800 0 0 allocOk).buffer = state800.buffer ∧
    (xdg_toplevel_configure state800 0 0 allocOk).shm_data = state800.shm_data ∧
    (xdg_toplevel_configure state800 0 0 allocOk).trace = state800.trace ∧
    destroyedBuffers (xdg_toplevel_configure state800 0 0 allocOk).trace
      = destroyedBuffers state800.trace ∧
    createCalls (xdg_toplevel_configure state800 0 0 allocOk).trace
      = createCalls state800.trace :=
  ⟨by decide, toplevel_configure_zero_keeps_state state800 allocOk (by decide) (by decide)⟩

/-- C4: in a state whose committed dimensions are not both positive, a toplevel
configure `(0,0)` leaves `wayland.width = 400`, `wayland.height = 400` and
calls `create_buffer` once, with `(400,400)`. -/
theorem toplevel_configure_zero_default (s : State) (o : Alloc)
    (h : s.width ≤ 0 ∨ s.height ≤ 0) :
    (xdg_toplevel_configure s 0 0 o).width = 400 ∧
    (xdg_toplevel_configure s 0 0 o).height = 400 ∧
    createCalls (xdg_toplevel_configure s 0 0 o).trace
      = createCalls s.trace ++ [(400, 400)] := by
  have hc : committedSize s 0 0 = (400, 400) := by
    have : ¬ (s.width > 0 ∧ s.height > 0) := by omega
    simp [committedSize, this]
  have hd : (400 : Int) ≠ s.width ∨ (400 : Int) ≠ s.height := by omega
  rw [xdg_toplevel_configure_eq, hc]
  obtain ⟨h1, h2, _⟩ := toplevel_resize_spec s 400 400 o hd
  exact ⟨h1, h2, toplevel_resize_createCalls s 400 400 o hd⟩

/-- First handshake for C4: from the zeroed state of `main`, `(0,0)` gives 400x400. -/
theorem toplevel_configure_zero_default_witness :
    (initState.width ≤ 0 ∨ initState.height ≤ 0) ∧
    (xdg_toplevel_configure initState 0 0 allocOk).width = 400 ∧
    (xdg_toplevel_configure initState 0 0 allocOk).height = 400 ∧
    createCalls (xdg_toplevel_configure initState 0 0 allocOk).trace
      = createCalls initState.trace ++ [(400, 400)] :=
  ⟨by decide, toplevel_configure_zero_default initState allocOk (by decide)⟩

/-- C2 (as stated) fails: after a resize to `(800,600)` whose `create_buffer`
failed there is no backing buffer, yet a further toplevel configure `(800,600)`
commits `(800,600)` without calling `create_buffer`; likewise in the state
`create_surface(400,400)` sets up before its roundtrips (`wayland.width/height`
set, no buffer) a toplevel configure `(400,400)` calls no `create_buffer`. -/
theorem recreation_tracks_buffer_size_fails :
    (stateFailed.buffer = none ∧
      ¬ (callsCreateBuffer stateFailed (xdg_toplevel_configure stateFailed 800 600 allocOk) ↔
          some ((xdg_toplevel_configure stateFailed 800 600 allocOk).width,
                (xdg_toplevel_configure stateFailed 800 600 allocOk).height)
            ≠ bufferDims stateFailed)) ∧
    (setupState.buffer = none ∧
      ¬ (callsCreateBuffer setupState (xdg_toplevel_configure setupState 400 400 allocOk) ↔
          some ((xdg_toplevel_configure setupState 400 400 allocOk).width,
                (xdg_toplevel_configure setupState 400 400 allocOk).height)
            ≠ bufferDims setupState)) := by
  decide

/-- C2 (amended): `xdg_toplevel_configure` calls `create_buffer` if and only if
the `(width,height)` it commits differs from `wayland.width/height` before the
event, and then exactly once, with the committed size. -/
theorem recreation_iff_committed_size_changes (s : State) (w h : Int) (o : Alloc) :
    (callsCreateBuffer s (xdg_toplevel_configure s w h o) ↔
      ((xdg_toplevel_configure s w h o).width, (xdg_toplevel_configure s w h o).height)
        ≠ (s.width, s.height)) ∧
    createCalls (xdg_toplevel_configure s w h o).trace
      = createCalls s.trace ++
        (if ((xdg_toplevel_configure s w h o).width, (xdg_toplevel_configure s w h o).height)
            ≠ (s.width, s.height)
         then [((xdg_toplevel_configure s w h o).width, (xdg_toplevel_configure s w h o).height)]
         else []) := by
  rw [xdg_toplevel_configure_eq]
  by_cases hd : (committedSize s w h).1 ≠ s.width ∨ (committedSize s w h).2 ≠ s.height
  · obtain ⟨h1, h2, _⟩ := toplevel_resize_spec s _ _ o hd
    have hc := toplevel_resize_createCalls s _ _ o hd
    have hne : ((committedSize s w h).1, (committedSize s w h).2) ≠ (s.width, s.height) := by
      intro he
      simp only [Prod.mk.injEq] at he
      rcases hd with hd | hd
      · exact hd he.1
      · exact hd he.2
    simp only [h1, h2, callsCreateBuffer, hc]
    simp [hne]
  · have hw : (committedSize s w h).1 = s.width := by
      by_contra hx
      exact hd (Or.inl hx)
    have hh : (committedSize s w h).2 = s.height := by
      by_contra hx
      exact hd (Or.inr hx)
    rw [toplevel_resize_same s _ _ o hw hh]
    simp [callsCreateBuffer]

/-- C9 (as stated) fails: with committed `(400,400)`, the proposal `(800,0)` is
not `(0,0)` and differs from the committed size, yet the handler keeps
`(400,400)` and changes nothing. -/
theorem one_zero_component_fails :
    startState.width = 400 ∧ startState.height = 400 ∧
    xdg_toplevel_configure startState 800 0 allocOk = startState ∧
    ¬ ((xdg_toplevel_configure startState 800 0 allocOk).width = 800 ∧
       (xdg_toplevel_configure startState 800 0 allocOk).height = 0 ∧
       callsCreateBuffer startState (xdg_toplevel_configure startState 800 0 allocOk)) := by
  decide

/-- C9 (amended): a proposal with both components non-zero that differs from
the committed size is committed and `create_buffer` is called with it; a
proposal with at least one zero component leaves the state untouched when the
committed dimensions are both positive, and otherwise commits the default
400x400 and calls `create_buffer` with it. -/
theorem toplevel_configure_policy (s : State) (w h : Int) (o : Alloc) :
    (w ≠ 0 → h ≠ 0 → (w ≠ s.width ∨ h ≠ s.height) →
      (xdg_toplevel_configure s w h o).width = w ∧
      (xdg_toplevel_configure s w h o).height = h ∧
      createCalls (xdg_toplevel_configure s w h o).trace = createCalls s.trace ++ [(w, h)]) ∧
    ((w = 0 ∨ h = 0) → (s.width > 0 ∧ s.height > 0) →
      xdg_toplevel_configure s w h o = s) ∧
    ((w = 0 ∨ h = 0) → ¬ (s.width > 0 ∧ s.height > 0) →
      (xdg_toplevel_configure s w h o).width = 400 ∧
      (xdg_toplevel_configure s w h o).height = 400 ∧
      createCalls (xdg_toplevel_configure s w h o).trace
        = createCalls s.trace ++ [(400, 400)]) := by
  refine ⟨?_, ?_, ?_⟩
  · intro hw hh hd
    have hc : committedSize s w h = (w, h) := by simp [committedSize, hw, hh]
    rw [xdg_toplevel_configure_eq, hc]
    obtain ⟨h1, h2, _⟩ := toplevel_resize_spec s w h o hd
    exact ⟨h1, h2, toplevel_resize_createCalls s w h o hd⟩
  · intro hz hp
    simp [xdg_toplevel_configure, hz, hp]
  · intro hz hp
    have hc : committedSize s w h = (400, 400) := by simp [committedSize, hz, hp]
    have hd : (400 : Int) ≠ s.width ∨ (400 : Int) ≠ s.height := by omega
    rw [xdg_toplevel_configure_eq, hc]
    obtain ⟨h1, h2, _⟩ := toplevel_resize_spec s 400 400 o hd
    exact ⟨h1, h2, toplevel_resize_createCalls s 400 400 o hd⟩

/-- Instances of the three cases of C9 (amended): `(800,600)` against committed
`(400,400)`, `(800,0)` against committed `(400,400)`, `(800,0)` against the
zeroed state. -/
theorem toplevel_configure_policy_witness :
    ((xdg_toplevel_configure startState 800 600 allocOk).width = 800 ∧
      (xdg_toplevel_configure startState 800 600 allocOk).height = 600 ∧
      createCalls (xdg_toplevel_configure startState 800 600 allocOk).trace
        = createCalls startState.trace ++ [(800, 600)]) ∧
    xdg_toplevel_configure startState 800 0 allocOk = startState ∧
    ((xdg_toplevel_configure initState 800 0 allocOk).width = 400 ∧
      (xdg_toplevel_configure initState 800 0 allocOk).height = 400 ∧
      createCalls (xdg_toplevel_configure initState 800 0 allocOk).trace
        = createCalls initState.trace ++ [(400, 400)]) :=
  ⟨(toplevel_configure_policy startState 800 600 allocOk).1
      (by decide) (by decide) (by decide),
    (toplevel_configure_policy startState 800 0 allocOk).2.1 (by decide) (by decide),
    (toplevel_configure_policy initState 800 0 allocOk).2.2 (by decide) (by decide)⟩

/-- C10 (as stated) fails: resizing from a current 400x400 buffer to `(800,600)`
with a failing `create_buffer` destroys the old buffer before `create_buffer`
is called and ends with `wayland.buffer == NULL`. -/
theorem old_buffer_survives_failed_resize_fails :
    startState.buffer = some ⟨1, 400, 400⟩ ∧
    allocFail.succeeds = false ∧
    (xdg_toplevel_configure startState 800 600 allocFail).buffer = none ∧
    ((xdg_toplevel_configure startState 800 600 allocFail).trace.drop
        startState.trace.length).map Issued.act
      = [Action.bufferDestroy ⟨1, 400, 400⟩, Action.createBufferCall 800 600,
         Action.memfdCreate, Action.ftruncate 1920000, Action.closeFd] := by
  decide

/-- C10 (amended): when a toplevel configure changes the dimensions while a
buffer `b` is current, the handler first destroys `b` and clears
`wayland.buffer`, then calls `create_buffer` with the new dimensions; no other
buffer is destroyed; if `create_buffer` fails `wayland.buffer` is NULL
afterwards, and if it succeeds `wayland.buffer` is the new buffer. -/
theorem resize_destroys_before_create (s : State) (w h : Int) (o : Alloc) (b : Buffer)
    (hb : s.buffer = some b)
    (hd : (xdg_toplevel_configure s w h o).width ≠ s.width ∨
          (xdg_toplevel_configure s w h o).height ≠ s.height) :
    (∃ rest, (xdg_toplevel_configure s w h o).trace
        = s.trace ++
          ⟨Action.bufferDestroy b, (xdg_toplevel_configure s w h o).width,
            (xdg_toplevel_configure s w h o).height⟩ ::
          ⟨Action.createBufferCall (xdg_toplevel_configure s w h o).width
            (xdg_toplevel_configure s w h o).height,
            (xdg_toplevel_configure s w h o).width,
            (xdg_toplevel_configure s w h o).height⟩ :: rest ∧
        destroyedBuffers rest = [] ∧ createCalls rest = []) ∧
    (o.succeeds = false → (xdg_toplevel_configure s w h o).buffer = none) ∧
    (o.succeeds = true →
      ∃ b', (xdg_toplevel_configure s w h o).buffer = some b' ∧
        b'.width = (xdg_toplevel_configure s w h o).width ∧
        b'.height = (xdg_toplevel_configure s w h o).height) := by
  rw [xdg_toplevel_configure_eq] at hd ⊢
  by_cases hc : (committedSize s w h).1 ≠ s.width ∨ (committedSize s w h).2 ≠ s.height
  · obtain ⟨h1, h2, _, _, ⟨rest, ht, q1, _, q3, _⟩, h6, h7⟩ := toplevel_resize_spec s _ _ o hc
    rw [h1, h2]
    refine ⟨⟨rest, ?_, q3, q1⟩, h6, ?_⟩
    · rw [ht]
      simp [destroyPart, hb]
    · simpa [h1, h2] using h7
  · exfalso
    have hw : (committedSize s w h).1 = s.width := by
      by_contra hx
      exact hc (Or.inl hx)
    have hh : (committedSize s w h).2 = s.height := by
      by_contra hx
      exact hc (Or.inr hx)
    rw [toplevel_resize_same s _ _ o hw hh] at hd
    simp at hd

/-- Instance of C10 (amended): the 400x400 start state resized to `(800,600)`
with a failing `create_buffer`. -/
theorem resize_destroys_before_create_witness :
    (∃ rest, (xdg_toplevel_configure startState 800 600 allocFail).trace
        = startState.trace ++
          ⟨Action.bufferDestroy ⟨1, 400, 400⟩, 800, 600⟩ ::
          ⟨Action.createBufferCall 800 600, 800, 600⟩ :: rest ∧
        destroyedBuffers rest = [] ∧ createCalls rest = []) ∧
    (xdg_toplevel_configure startState 800 600 allocFail).buffer = none :=
  ⟨(resize_destroys_before_create startState 800 600 allocFail ⟨1, 400, 400⟩
      (by decide) (by decide)).1,
    (resize_destroys_before_create startState 800 600 allocFail ⟨1, 400, 400⟩
      (by decide) (by decide)).2.1 (by decide)⟩

/-! ## `xdg_surface_configure` -/

theorem xdg_surface_configure_spec (s : State) (serial : Nat) :
    (xdg_surface_configure s serial).buffer = s.buffer ∧
    (xdg_surface_configure s serial).width = s.width ∧
    (xdg_surface_configure s serial).height = s.height ∧
    (xdg_surface_configure s serial).running = s.running ∧
    (xdg_surface_configure s serial).last_serial = serial ∧
    (xdg_surface_configure s serial).trace
      = s.trace ++ ⟨Action.ackConfigure serial, s.width, s.height⟩ :: presentPart s := by
  rcases s with ⟨buf, sw, sh, run, ls, shm, nid, tr⟩
  cases buf with
  | none => simp [xdg_surface_configure, presentPart]
  | some b =>
    by_cases hp : sw > 0 ∧ sh > 0
    · simp [xdg_surface_configure, presentPart, hp]
    · simp [xdg_surface_configure, presentPart, hp]

theorem ackSerials_presentPart (s : State) : ackSerials (presentPart s) = [] := by
  unfold presentPart
  cases s.buffer with
  | none => rfl
  | some b =>
    by_cases hp : s.width > 0 ∧ s.height > 0
    · simp [hp, ackSerials]
    · simp [hp, ackSerials]

theorem ackSerials_destroyPart (s : State) (w h : Int) :
    ackSerials (destroyPart s w h) = [] := by
  unfold destroyPart
  cases s.buffer <;> simp [ackSerials]

theorem xdg_toplevel_configure_acks (s : State) (w h : Int) (o : Alloc) :
    ackSerials (xdg_toplevel_configure s w h o).trace = ackSerials s.trace := by
  rw [xdg_toplevel_configure_eq]
  by_cases hd : (committedSize s w h).1 ≠ s.width ∨ (committedSize s w h).2 ≠ s.height
  · obtain ⟨_, _, _, _, ⟨rest, ht, _, q2, _⟩, _⟩ := toplevel_resize_spec s _ _ o hd
    rw [ht, ackSerials_append, ackSerials_append, ackSerials_destroyPart]
    simp [ackSerials] at q2 ⊢
    exact q2
  · have hw : (committedSize s w h).1 = s.width := by
      by_contra hx
      exact hd (Or.inl hx)
    have hh : (committedSize s w h).2 = s.height := by
      by_contra hx
      exact hd (Or.inr hx)
    rw [toplevel_resize_same s _ _ o hw hh]

theorem handle_acks (s : State) (e : Event) :
    ackSerials (handle s e).trace = ackSerials s.trace ++ configureSerials [e] := by
  cases e with
  | ping n => simp [handle, xdg_wm_base_ping, ackSerials, configureSerials]
  | surfaceConfigure n =>
    obtain ⟨_, _, _, _, _, ht⟩ := xdg_surface_configure_spec s n
    have hp := ackSerials_presentPart s
    simp only [handle, ht, ackSerials_append]
    simp [ackSerials, configureSerials] at hp ⊢
    exact hp
  | toplevelConfigure w h o =>
    simp [handle, xdg_toplevel_configure_acks, configureSerials]
  | close => simp [handle, xdg_toplevel_close, configureSerials]
  | signal => simp [handle, signal_handler, configureSerials]

theorem dispatch_acks (evs : List Event) (s : State) :
    ackSerials (dispatch s evs).trace = ackSerials s.trace ++ configureSerials evs := by
  induction evs generalizing s with
  | nil => simp [dispatch, configureSerials]
  | cons e es ih =>
    have h1 : dispatch s (e :: es) = dispatch (handle s e) es := rfl
    have h2 : configureSerials (e :: es) = configureSerials [e] ++ configureSerials es := by
      simp [configureSerials, List.filterMap_cons]
      cases e <;> simp
    rw [h1, ih, handle_acks, h2, List.append_assoc]

/-! ## Claims about `xdg_surface_configure` -/

/-- C5 (as stated) fails: serial 7 followed by serial 5 leaves
`wayland.last_serial = 5`, which is lower than before and is not
`max(7, 5)`. -/
theorem last_serial_is_max_fails :
    (xdg_surface_configure initState 7).last_serial = 7 ∧
    (xdg_surface_configure (xdg_surface_configure initState 7) 5).last_serial = 5 ∧
    ¬ ((xdg_surface_configure (xdg_surface_configure initState 7) 5).last_serial
        = max (xdg_surface_configure initState 7).last_serial 5) ∧
    ¬ ((xdg_surface_configure initState 7).last_serial
        ≤ (xdg_surface_configure (xdg_surface_configure initState 7) 5).last_serial) := by
  decide

/-- C5 (amended): after `xdg_surface_configure(serial)`, `wayland.last_serial`
equals `serial`, the serial of the most recent event; it equals
`max(old last_serial, serial)`, and does not decrease, exactly when
`serial` is at least the old value. -/
theorem last_serial_is_latest (s : State) (serial : Nat) :
    (xdg_surface_configure s serial).last_serial = serial ∧
    ((xdg_surface_configure s serial).last_serial = max s.last_serial serial
      ↔ s.last_serial ≤ serial) ∧
    (s.last_serial ≤ (xdg_surface_configure s serial).last_serial
      ↔ s.last_serial ≤ serial) := by
  obtain ⟨_, _, _, _, h, _⟩ := xdg_surface_configure_spec s serial
  rw [h]
  refine ⟨rfl, ?_, Iff.rfl⟩
  constructor
  · intro hm
    omega
  · intro hle
    omega

/-- C6: over every sequence of events, the `xdg_surface_ack_configure` calls
carry exactly the serials of the surface-configure events, in arrival order,
one per event; within one `xdg_surface_configure` invocation the ack is the
first call made, so it precedes the attach and commit of that invocation, and
the invocation makes no other ack; serials 5 then 7 give acks `[5, 7]` and
`last_serial = 7`. -/
theorem acks_follow_events :
    (∀ (s : State) (evs : List Event),
      ackSerials (dispatch s evs).trace = ackSerials s.trace ++ configureSerials evs) ∧
    (∀ (s : State) (serials : List Nat),
      ackSerials (dispatch s (serials.map Event.surfaceConfigure)).trace
        = ackSerials s.trace ++ serials) ∧
    (∀ (s : State) (serial : Nat),
      ∃ rest, (xdg_surface_configure s serial).trace
          = s.trace ++ ⟨Action.ackConfigure serial, s.width, s.height⟩ :: rest ∧
        ackSerials rest = []) ∧
    ackSerials (dispatch startState
        [Event.surfaceConfigure 5, Event.surfaceConfigure 7]).trace = [5, 7] ∧
    (dispatch startState [Event.surfaceConfigure 5, Event.surfaceConfigure 7]).last_serial
      = 7 := by
  refine ⟨fun s evs => dispatch_acks evs s, ?_, ?_, by decide, by decide⟩
  · intro s serials
    rw [dispatch_acks]
    congr 1
    induction serials with
    | nil => rfl
    | cons n ns ih =>
      simp only [List.map_cons, configureSerials, List.filterMap_cons] at ih ⊢
      rw [ih]
  · intro s serial
    obtain ⟨_, _, _, _, _, ht⟩ := xdg_surface_configure_spec s serial
    exact ⟨presentPart s, ht, ackSerials_presentPart s⟩

/-! ## Shutdown -/

theorem xdg_toplevel_configure_running (s : State) (w h : Int) (o : Alloc) :
    (xdg_toplevel_configure s w h o).running = s.running := by
  rw [xdg_toplevel_configure_eq]
  by_cases hd : (committedSize s w h).1 ≠ s.width ∨ (committedSize s w h).2 ≠ s.height
  · exact (toplevel_resize_spec s _ _ o hd).2.2.1
  · have hw : (committedSize s w h).1 = s.width := by
      by_contra hx
      exact hd (Or.inl hx)
    have hh : (committedSize s w h).2 = s.height := by
      by_contra hx
      exact hd (Or.inr hx)
    rw [toplevel_resize_same s _ _ o hw hh]

/-- No handler sets `wayland.running` back to 1. -/
theorem handle_stays_stopped (s : State) (e : Event) (h : s.running = false) :
    (handle s e).running = false := by
  cases e with
  | ping n => simpa [handle, xdg_wm_base_ping] using h
  | surfaceConfigure n =>
    simpa [handle, (xdg_surface_configure_spec s n).2.2.2.1] using h
  | toplevelConfigure w h' o =>
    simpa [handle, xdg_toplevel_configure_running] using h
  | close => rfl
  | signal => rfl

theorem dispatch_stays_stopped (evs : List Event) (s : State) (h : s.running = false) :
    (dispatch s evs).running = false := by
  induction evs generalizing s with
  | nil => exact h
  | cons e es ih => exact ih (handle s e) (handle_stays_stopped s e h)

theorem dispatch_stops (evs : List Event) (s : State)
    (h : Event.close ∈ evs ∨ Event.signal ∈ evs) : (dispatch s evs).running = false := by
  induction evs generalizing s with
  | nil => simp at h
  | cons e es ih =>
    have hstep : dispatch s (e :: es) = dispatch (handle s e) es := rfl
    rw [hstep]
    by_cases hc : e = Event.close
    · subst hc
      exact dispatch_stays_stopped es _ rfl
    · by_cases hs : e = Event.signal
      · subst hs
        exact dispatch_stays_stopped es _ rfl
      · apply ih
        rcases h with h | h
        · left
          rcases List.mem_cons.mp h with h | h
          · exact absurd h.symm hc
          · exact h
        · right
          rcases List.mem_cons.mp h with h | h
          · exact absurd h.symm hs
          · exact h

theorem mainLoop_stopped (s : State) (bs : List Batch) (h : s.running = false) :
    mainLoop s bs = s := by
  cases bs with
  | nil => rfl
  | cons b bs => simp [mainLoop, h]

/-- C7 (as stated) fails: when the close event and a surface-configure event
arrive in the same `wl_display_dispatch` batch, `xdg_toplevel_close` sets
`wayland.running = 0` and the later `xdg_surface_configure` invocation still
draws, attaches, damages and commits. -/
theorem no_presentation_after_close_fails :
    (handle startState Event.close).running = false ∧
    ((handle (handle startState Event.close) (Event.surfaceConfigure 9)).trace.drop
        (handle startState Event.close).trace.length).map Issued.act
      = [Action.ackConfigure 9, Action.drawCircle (MapPtr.addr 0) 400 400,
         Action.attach ⟨1, 400, 400⟩, Action.damage 0 0 400 400, Action.commit] ∧
    ((mainLoop startState [⟨[Event.close, Event.surfaceConfigure 9], true⟩]).trace.drop
        startState.trace.length).map Issued.act
      = [Action.ackConfigure 9, Action.drawCircle (MapPtr.addr 0) 400 400,
         Action.attach ⟨1, 400, 400⟩, Action.damage 0 0 400 400, Action.commit] := by
  decide

/-- C7 (amended): once `xdg_toplevel_close` or `signal_handler` has run within
a dispatch batch, `wayland.running` is 0 at the end of that batch and the main
loop makes no further `wl_display_dispatch` call, so no handler of a later
batch runs and nothing is presented after that batch; the remaining events of
the same batch are still handled. -/
theorem no_dispatch_after_stop (s : State) (evs : List Event) (ok : Bool)
    (later : List Batch) (hrun : s.running = true)
    (hstop : Event.close ∈ evs ∨ Event.signal ∈ evs) :
    (dispatch s evs).running = false ∧
    mainLoop s (⟨evs, ok⟩ :: later) = dispatch s evs := by
  have hstopped := dispatch_stops evs s hstop
  refine ⟨hstopped, ?_⟩
  cases ok with
  | false => simp [mainLoop, hrun]
  | true =>
    simp only [mainLoop, hrun, if_true]
    exact mainLoop_stopped _ later hstopped

/-- Instance of C7 (amended): a close followed by a surface configure in one
batch, then a second batch that is never dispatched. -/
theorem no_dispatch_after_stop_witness :
    (dispatch startState [Event.close, Event.surfaceConfigure 9]).running = false ∧
    mainLoop startState
        (⟨[Event.close, Event.surfaceConfigure 9], true⟩ ::
          [⟨[Event.surfaceConfigure 10], true⟩])
      = dispatch startState [Event.close, Event.surfaceConfigure 9] :=
  no_dispatch_after_stop startState [Event.close, Event.surfaceConfigure 9] true
    [⟨[Event.surfaceConfigure 10], true⟩] (by decide) (by decide)

/-! ## Buffer size arithmetic -/

/-- Within the range where neither `int` product overflows and the sizes are
non-negative, `create_buffer` computes the mathematical stride and size. -/
theorem bufferSize_in_range (w h : Int) (hw : 0 ≤ w) (hh : 0 ≤ h)
    (hs : w * 4 < 2147483648) (hz : w * 4 * h < 2147483648) :
    bufferStride w = w * 4 ∧ (bufferSize w h : Int) = w * 4 * h := by
  have h1 : bufferStride w = w * 4 := by
    unfold bufferStride wrapInt32
    omega
  have h0 : 0 ≤ w * 4 * h := Int.mul_nonneg (by omega) hh
  refine ⟨h1, ?_⟩
  unfold bufferSize
  rw [h1]
  generalize w * 4 * h = p at hz h0
  unfold wrapInt32 toSizeT
  omega

/-- C8, the code at `(40000, 30000)`: the stride is 160000 and the 32-bit
product `stride * height` wraps to 505032704, so `ftruncate`, `mmap` and the
pool are given 505032704 bytes and `shm_data.size` is 505032704, whereas
`width * 4 * height` is 4800000000; at `(-1, 1)` no product overflows and the
`int` value `-4` converts to the `size_t` 18446744073709551612; at
`(800, 600)` the stride is 3200, the size 1920000 and the buffer has
dimensions `(800, 600)`. -/
theorem create_buffer_size_wraps :
    ((create_buffer startState 40000 30000 allocOk).1.trace.drop
        startState.trace.length).map Issued.act
      = [Action.createBufferCall 40000 30000, Action.memfdCreate,
         Action.ftruncate 505032704, Action.mmap 505032704, Action.shmCreatePool 505032704,
         Action.poolCreateBuffer 0 40000 30000 160000, Action.poolDestroy, Action.closeFd] ∧
    (create_buffer startState 40000 30000 allocOk).1.shm_data.size = 505032704 ∧
    ((create_buffer startState 40000 30000 allocOk).1.shm_data.size : Int)
      ≠ 40000 * 4 * 30000 ∧
    (create_buffer startState (-1) 1 allocOk).1.shm_data.size = 18446744073709551612 ∧
    ((create_buffer startState (-1) 1 allocOk).1.shm_data.size : Int) ≠ (-1) * 4 * 1 ∧
    ((create_buffer initState 800 600 allocOk).1.trace).map Issued.act
      = [Action.createBufferCall 800 600, Action.memfdCreate, Action.ftruncate 1920000,
         Action.mmap 1920000, Action.shmCreatePool 1920000,
         Action.poolCreateBuffer 0 800 600 3200, Action.poolDestroy, Action.closeFd] ∧
    (create_buffer initState 800 600 allocOk).1.shm_data.size = 1920000 ∧
    (create_buffer initState 800 600 allocOk).2 = some ⟨1, 800, 600⟩ := by
  decide

/-! ## The size invariant of attached buffers -/

theorem TraceOk_append (t u : List Issued) (ht : TraceOk t) (hu : TraceOk u) :
    TraceOk (t ++ u) := by
  intro i hi
  rcases List.mem_append.mp hi with h | h
  · exact ht i h
  · exact hu i h

theorem TraceOk_of_no_attach (t : List Issued) (h : attaches t = []) : TraceOk t := by
  intro i hi
  have hf := List.filter_eq_nil_iff.mp h i hi
  unfold Issued.attachMatches
  split
  · rename_i b hb
    simp [hb] at hf
  · trivial

theorem TraceOk_destroyPart (s : State) (w h : Int) : TraceOk (destroyPart s w h) := by
  apply TraceOk_of_no_attach
  unfold destroyPart
  cases s.buffer <;> simp [attaches]

theorem TraceOk_presentPart (s : State)
    (hb : ∀ b, s.buffer = some b → 0 < s.width → 0 < s.height →
      b.width = s.width ∧ b.height = s.height) :
    TraceOk (presentPart s) := by
  unfold presentPart
  cases hbuf : s.buffer with
  | none => intro i hi; simp at hi
  | some b =>
    by_cases hp : s.width > 0 ∧ s.height > 0
    · obtain ⟨h1, h2⟩ := hb b hbuf hp.1 hp.2
      intro i hi
      simp [hp] at hi
      rcases hi with hi | hi | hi | hi <;> subst hi <;> simp [Issued.attachMatches, h1, h2]
    · intro i hi
      simp [hp] at hi

theorem handle_inv (s : State) (e : Event) (he : e.sizeNonneg) (hs : Inv s) :
    Inv (handle s e) := by
  obtain ⟨ht, hb, hw, hh⟩ := hs
  cases e with
  | ping n =>
    refine ⟨?_, hb, hw, hh⟩
    apply TraceOk_append _ _ ht
    intro i hi
    simp at hi
    subst hi
    simp [Issued.attachMatches]
  | surfaceConfigure n =>
    obtain ⟨c1, c2, c3, _, _, c6⟩ := xdg_surface_configure_spec s n
    simp only [handle]
    refine ⟨?_, ?_, by rw [c2]; exact hw, by rw [c3]; exact hh⟩
    · rw [c6]
      apply TraceOk_append _ _ ht
      intro i hi
      rcases List.mem_cons.mp hi with hi | hi
      · subst hi
        simp [Issued.attachMatches]
      · exact TraceOk_presentPart s (fun b hb' _ _ => hb b hb') i hi
    · rw [c1, c2, c3]
      exact hb
  | toplevelConfigure w h o =>
    simp only [handle]
    rw [xdg_toplevel_configure_eq]
    by_cases hd : (committedSize s w h).1 ≠ s.width ∨ (committedSize s w h).2 ≠ s.height
    · obtain ⟨c1, c2, _, _, ⟨rest, c5, _, _, _, q4⟩, c6, c7⟩ := toplevel_resize_spec s _ _ o hd
      have hpos : 0 < (committedSize s w h).1 ∧ 0 < (committedSize s w h).2 := by
        unfold committedSize
        unfold committedSize at hd
        have hn : 0 ≤ w ∧ 0 ≤ h := he
        by_cases hz : w = 0 ∨ h = 0
        · have hp : s.width > 0 ∧ s.height > 0 := ⟨hw, hh⟩
          simp [hz, hp] at hd
        · simp only [hz, if_false]
          constructor <;> omega
      refine ⟨?_, ?_, by rw [c1]; exact hpos.1, by rw [c2]; exact hpos.2⟩
      · rw [c5]
        apply TraceOk_append
        · exact TraceOk_append _ _ ht (TraceOk_destroyPart s _ _)
        · intro i hi
          rcases List.mem_cons.mp hi with hi | hi
          · subst hi
            simp [Issued.attachMatches]
          · exact TraceOk_of_no_attach rest q4 i hi
      · intro b hbuf
        rw [c1, c2]
        cases hsucc : o.succeeds with
        | false =>
          rw [c6 hsucc] at hbuf
          cases hbuf
        | true =>
          obtain ⟨b', hb', hbw, hbh⟩ := c7 hsucc
          rw [hb'] at hbuf
          cases hbuf
          exact ⟨hbw, hbh⟩
    · have hw' : (committedSize s w h).1 = s.width := by
        by_contra hx
        exact hd (Or.inl hx)
      have hh' : (committedSize s w h).2 = s.height := by
        by_contra hx
        exact hd (Or.inr hx)
      rw [toplevel_resize_same s _ _ o hw' hh']
      exact ⟨ht, hb, hw, hh⟩
  | close => exact ⟨ht, hb, hw, hh⟩
  | signal => exact ⟨ht, hb, hw, hh⟩

theorem sizesNonneg_cons (e : Event) (es : List Event) (h : sizesNonneg (e :: es)) :
    e.sizeNonneg ∧ sizesNonneg es := by
  constructor
  · exact h e (List.mem_cons_self e es)
  · intro x hx
    exact h x (List.mem_cons_of_mem e hx)

theorem dispatch_inv (evs : List Event) (s : State) (he : sizesNonneg evs) (hs : Inv s) :
    Inv (dispatch s evs) := by
  induction evs generalizing s with
  | nil => exact hs
  | cons e es ih =>
    obtain ⟨h1, h2⟩ := sizesNonneg_cons e es he
    exact ih (handle s e) h2 (handle_inv s e h1 hs)

theorem mainLoop_inv (bs : List Batch) (s : State)
    (he : ∀ b ∈ bs, sizesNonneg b.events) (hs : Inv s) : Inv (mainLoop s bs) := by
  induction bs generalizing s with
  | nil => exact hs
  | cons b bs ih =>
    have hb : sizesNonneg b.events := he b (List.mem_cons_self b bs)
    have hrest : ∀ x ∈ bs, sizesNonneg x.events := fun x hx =>
      he x (List.mem_cons_of_mem b hx)
    unfold mainLoop
    by_cases hr : s.running = true
    · rw [if_pos hr]
      by_cases hok : b.ok = true
      · simp only [hok, if_true]
        exact ih _ hrest (dispatch_inv _ s hb hs)
      · simp only [hok]
        exact dispatch_inv _ s hb hs
    · rw [if_neg hr]
      exact hs

theorem create_surface_tail_inv (s5 : State) (w h : Int) (o : Alloc) (hs : Inv s5) :
    TraceOk (create_surface_finish s5 w h o).1.trace ∧
    ((create_surface_finish s5 w h o).2 = 0 → Inv (create_surface_finish s5 w h o).1) := by
  unfold create_surface_finish
  obtain ⟨ht, hb, hw, hh⟩ := hs
  simp only [hw, hh, if_true]
  cases hbuf : s5.buffer with
  | some b =>
    obtain ⟨e1, e2⟩ := hb b hbuf
    have hT : TraceOk (s5.trace ++
        [⟨Action.drawCircle s5.shm_data.data s5.width s5.height, s5.width, s5.height⟩,
         ⟨Action.attach b, s5.width, s5.height⟩,
         ⟨Action.damage 0 0 s5.width s5.height, s5.width, s5.height⟩,
         ⟨Action.commit, s5.width, s5.height⟩]) := by
      apply TraceOk_append _ _ ht
      intro i hi
      simp at hi
      rcases hi with hi | hi | hi | hi <;> subst hi <;> simp [Issued.attachMatches, e1, e2]
    simp only [emit_trace, emit_width, emit_height, List.append_assoc, List.singleton_append,
      List.cons_append, List.nil_append]
    refine ⟨hT, fun _ => ⟨?_, ?_, ?_, ?_⟩⟩
    · simpa using hT
    · simpa [hbuf] using hb
    · simpa using hw
    · simpa using hh
  | none =>
    obtain ⟨c1, c2, c3, _, _, ⟨rest, c6, _, _, _, q4⟩, c7, c8⟩ :=
      create_buffer_spec s5 s5.width s5.height o
    have hT0 : TraceOk (create_buffer s5 s5.width s5.height o).1.trace := by
      rw [c6]
      apply TraceOk_append _ _ ht
      intro i hi
      rcases List.mem_cons.mp hi with hi | hi
      · subst hi
        simp [Issued.attachMatches]
      · exact TraceOk_of_no_attach rest q4 i hi
    cases hsucc : o.succeeds with
    | false =>
      simp only [c7 hsucc]
      exact ⟨hT0, fun hx => absurd hx (by decide)⟩
    | true =>
      obtain ⟨b, hb', e1, e2⟩ := c8 hsucc
      simp only [hb']
      have hT : TraceOk ((create_buffer s5 s5.width s5.height o).1.trace ++
          [⟨Action.drawCircle (create_buffer s5 s5.width s5.height o).1.shm_data.data
              s5.width s5.height, s5.width, s5.height⟩,
           ⟨Action.attach b, s5.width, s5.height⟩,
           ⟨Action.damage 0 0 s5.width s5.height, s5.width, s5.height⟩,
           ⟨Action.commit, s5.width, s5.height⟩]) := by
        apply TraceOk_append _ _ hT0
        intro i hi
        simp at hi
        rcases hi with hi | hi | hi | hi <;> subst hi <;> simp [Issued.attachMatches, e1, e2]
      simp only [emit_trace, emit_width, emit_height, c2, c3, List.append_assoc,
        List.singleton_append, List.cons_append, List.nil_append]
      refine ⟨hT, fun _ => ⟨?_, ?_, ?_, ?_⟩⟩
      · simpa [c2, c3] using hT
      · intro b2 hb2
        simp at hb2
        subst hb2
        simpa [c2, c3] using And.intro e1 e2
      · simpa [c2] using hw
      · simpa [c3] using hh

theorem TraceOk_emit (s : State) (a : Action) (ht : TraceOk s.trace)
    (ha : ∀ b, a ≠ Action.attach b) : TraceOk (emit s a).trace := by
  rw [emit_trace]
  apply TraceOk_append _ _ ht
  intro i hi
  simp at hi
  subst hi
  unfold Issued.attachMatches
  split
  · rename_i b hb
    exact absurd hb (ha b)
  · trivial

theorem create_surface_inv (s : State) (w h : Int) (env : SurfaceEnv)
    (rt1 rt2 : List Event) (o : Alloc) (hw : 0 < w) (hh : 0 < h)
    (hbuf : s.buffer = none) (ht : TraceOk s.trace)
    (h1 : sizesNonneg rt1) (h2 : sizesNonneg rt2) :
    TraceOk (create_surface s w h env rt1 rt2 o).1.trace ∧
    ((create_surface s w h env rt1 rt2 o).2 = 0 →
      Inv (create_surface s w h env rt1 rt2 o).1) := by
  have t1 : TraceOk (emit { s with width := w, height := h }
      Action.compositorCreateSurface).trace :=
    TraceOk_emit _ _ ht (by intro b; simp)
  have t2 := TraceOk_emit _ Action.getXdgSurface t1 (by intro b; simp)
  have t3 := TraceOk_emit _ Action.getToplevel t2 (by intro b; simp)
  have t4 := TraceOk_emit _ Action.setTitle t3 (by intro b; simp)
  have t5 := TraceOk_emit _ (Action.setMinSize w h) t4 (by intro b; simp)
  have t6 := TraceOk_emit _ Action.commit t5 (by intro b; simp)
  unfold create_surface
  cases hS : env.surfaceOk with
  | false =>
    rw [if_pos rfl]
    exact ⟨t1, fun hx => by simp at hx⟩
  | true =>
    rw [if_neg (by decide)]
    cases hX : env.xdgSurfaceOk with
    | false =>
      rw [if_pos rfl]
      exact ⟨t2, fun hx => by simp at hx⟩
    | true =>
      rw [if_neg (by decide)]
      cases hT : env.toplevelOk with
      | false =>
        rw [if_pos rfl]
        exact ⟨t3, fun hx => by simp at hx⟩
      | true =>
        rw [if_neg (by decide)]
        have i4 : Inv (emit (emit (emit (emit (emit (emit { s with width := w, height := h }
            Action.compositorCreateSurface) Action.getXdgSurface) Action.getToplevel)
            Action.setTitle) (Action.setMinSize w h)) Action.commit) := by
          refine ⟨t6, ?_, ?_, ?_⟩
          · intro b hb
            simp [hbuf] at hb
          · simpa using hw
          · simpa using hh
        exact create_surface_tail_inv _ w h o (dispatch_inv rt2 _ h2 (dispatch_inv rt1 _ h1 i4))

/-! ## The weaker invariant, for arbitrary proposals -/

theorem TraceWeak_of_TraceOk (t : List Issued) (h : TraceOk t) : TraceWeak t := by
  intro i hi
  have hm := h i hi
  unfold Issued.attachMatches at hm
  unfold Issued.attachMatchesIfPositive
  split
  · rename_i b hb
    rw [hb] at hm
    exact fun _ _ => hm
  · trivial

theorem TraceWeak_append (t u : List Issued) (ht : TraceWeak t) (hu : TraceWeak u) :
    TraceWeak (t ++ u) := by
  intro i hi
  rcases List.mem_append.mp hi with h | h
  · exact ht i h
  · exact hu i h

theorem TraceWeak_emit (s : State) (a : Action) (ht : TraceWeak s.trace)
    (ha : ∀ b, a ≠ Action.attach b) : TraceWeak (emit s a).trace := by
  rw [emit_trace]
  apply TraceWeak_append _ _ ht
  intro i hi
  simp at hi
  subst hi
  unfold Issued.attachMatchesIfPositive
  split
  · rename_i b hb
    exact absurd hb (ha b)
  · trivial

theorem handle_invWeak (s : State) (e : Event) (hs : InvWeak s) : InvWeak (handle s e) := by
  obtain ⟨ht, hb⟩ := hs
  cases e with
  | ping n => exact ⟨TraceWeak_emit s _ ht (by intro b; simp), hb⟩
  | surfaceConfigure n =>
    obtain ⟨c1, c2, c3, _, _, c6⟩ := xdg_surface_configure_spec s n
    simp only [handle]
    refine ⟨?_, ?_⟩
    · rw [c6]
      apply TraceWeak_append _ _ ht
      apply TraceWeak_of_TraceOk
      intro i hi
      rcases List.mem_cons.mp hi with hi | hi
      · subst hi
        simp [Issued.attachMatches]
      · exact TraceOk_presentPart s hb i hi
    · rw [c1, c2, c3]
      exact hb
  | toplevelConfigure w h o =>
    simp only [handle]
    rw [xdg_toplevel_configure_eq]
    by_cases hd : (committedSize s w h).1 ≠ s.width ∨ (committedSize s w h).2 ≠ s.height
    · obtain ⟨c1, c2, _, _, ⟨rest, c5, _, _, _, q4⟩, c6, c7⟩ := toplevel_resize_spec s _ _ o hd
      refine ⟨?_, ?_⟩
      · rw [c5]
        apply TraceWeak_append
        · exact TraceWeak_append _ _ ht (TraceWeak_of_TraceOk _ (TraceOk_destroyPart s _ _))
        · apply TraceWeak_of_TraceOk
          intro i hi
          rcases List.mem_cons.mp hi with hi | hi
          · subst hi
            simp [Issued.attachMatches]
          · exact TraceOk_of_no_attach rest q4 i hi
      · intro b hbuf _ _
        rw [c1, c2]
        cases hsucc : o.succeeds with
        | false =>
          rw [c6 hsucc] at hbuf
          cases hbuf
        | true =>
          obtain ⟨b', hb', hbw, hbh⟩ := c7 hsucc
          rw [hb'] at hbuf
          cases hbuf
          exact ⟨hbw, hbh⟩
    · have hw' : (committedSize s w h).1 = s.width := by
        by_contra hx
        exact hd (Or.inl hx)
      have hh' : (committedSize s w h).2 = s.height := by
        by_contra hx
        exact hd (Or.inr hx)
      rw [toplevel_resize_same s _ _ o hw' hh']
      exact ⟨ht, hb⟩
  | close => exact ⟨ht, hb⟩
  | signal => exact ⟨ht, hb⟩

theorem dispatch_invWeak (evs : List Event) (s : State) (hs : InvWeak s) :
    InvWeak (dispatch s evs) := by
  induction evs generalizing s with
  | nil => exact hs
  | cons e es ih => exact ih (handle s e) (handle_invWeak s e hs)

theorem mainLoop_invWeak (bs : List Batch) (s : State) (hs : InvWeak s) :
    InvWeak (mainLoop s bs) := by
  induction bs generalizing s with
  | nil => exact hs
  | cons b bs ih =>
    unfold mainLoop
    by_cases hr : s.running = true
    · rw [if_pos hr]
      by_cases hok : b.ok = true
      · simp only [hok, if_true]
        exact ih _ (dispatch_invWeak _ s hs)
      · simp only [hok]
        exact dispatch_invWeak _ s hs
    · rw [if_neg hr]
      exact hs

theorem create_surface_tail_invWeak (s5 : State) (w h : Int) (o : Alloc)
    (hs : InvWeak s5) : InvWeak (create_surface_finish s5 w h o).1 := by
  unfold create_surface_finish
  obtain ⟨ht, hb⟩ := hs
  dsimp only
  generalize hgw : (if s5.width > 0 then s5.width else w) = bw
  generalize hgh : (if s5.height > 0 then s5.height else h) = bh
  have hbw : 0 < s5.width → bw = s5.width := fun hp => by rw [← hgw, if_pos hp]
  have hbh : 0 < s5.height → bh = s5.height := fun hp => by rw [← hgh, if_pos hp]
  cases hbuf : s5.buffer with
  | some b =>
    have hT : TraceWeak (s5.trace ++
        [⟨Action.drawCircle s5.shm_data.data bw bh, s5.width, s5.height⟩,
         ⟨Action.attach b, s5.width, s5.height⟩,
         ⟨Action.damage 0 0 bw bh, s5.width, s5.height⟩,
         ⟨Action.commit, s5.width, s5.height⟩]) := by
      apply TraceWeak_append _ _ ht
      intro i hi
      simp at hi
      rcases hi with hi | hi | hi | hi <;> subst hi <;>
        simp [Issued.attachMatchesIfPositive]
      exact hb b hbuf
    refine ⟨?_, ?_⟩
    · simpa using hT
    · simpa [hbuf] using hb
  | none =>
    obtain ⟨c1, c2, c3, _, _, ⟨rest, c6, _, _, _, q4⟩, c7, c8⟩ :=
      create_buffer_spec s5 bw bh o
    have hT0 : TraceWeak (create_buffer s5 bw bh o).1.trace := by
      rw [c6]
      apply TraceWeak_append _ _ ht
      apply TraceWeak_of_TraceOk
      intro i hi
      rcases List.mem_cons.mp hi with hi | hi
      · subst hi
        simp [Issued.attachMatches]
      · exact TraceOk_of_no_attach rest q4 i hi
    cases hsucc : o.succeeds with
    | false =>
      simp only [c7 hsucc]
      refine ⟨hT0, ?_⟩
      intro b hb2
      simp at hb2
    | true =>
      obtain ⟨b, hb', e1, e2⟩ := c8 hsucc
      simp only [hb']
      have hT : TraceWeak ((create_buffer s5 bw bh o).1.trace ++
          [⟨Action.drawCircle (create_buffer s5 bw bh o).1.shm_data.data bw bh,
              s5.width, s5.height⟩,
           ⟨Action.attach b, s5.width, s5.height⟩,
           ⟨Action.damage 0 0 bw bh, s5.width, s5.height⟩,
           ⟨Action.commit, s5.width, s5.height⟩]) := by
        apply TraceWeak_append _ _ hT0
        intro i hi
        simp at hi
        rcases hi with hi | hi | hi | hi <;> subst hi <;>
          simp [Issued.attachMatchesIfPositive]
        intro p1 p2
        rw [e1, e2]
        exact ⟨hbw p1, hbh p2⟩
      refine ⟨?_, ?_⟩
      · simpa [c2, c3] using hT
      · intro b2 hb2 p1 p2
        simp at hb2
        subst hb2
        simp [c2, c3] at p1 p2 ⊢
        rw [e1, e2]
        exact ⟨hbw p1, hbh p2⟩

theorem create_surface_invWeak (s : State) (w h : Int) (env : SurfaceEnv)
    (rt1 rt2 : List Event) (o : Alloc) (hbuf : s.buffer = none) (ht : TraceWeak s.trace) :
    TraceWeak (create_surface s w h env rt1 rt2 o).1.trace ∧
    ((create_surface s w h env rt1 rt2 o).2 = 0 →
      InvWeak (create_surface s w h env rt1 rt2 o).1) := by
  have t1 : TraceWeak (emit { s with width := w, height := h }
      Action.compositorCreateSurface).trace :=
    TraceWeak_emit _ _ ht (by intro b; simp)
  have t2 := TraceWeak_emit _ Action.getXdgSurface t1 (by intro b; simp)
  have t3 := TraceWeak_emit _ Action.getToplevel t2 (by intro b; simp)
  have t4 := TraceWeak_emit _ Action.setTitle t3 (by intro b; simp)
  have t5 := TraceWeak_emit _ (Action.setMinSize w h) t4 (by intro b; simp)
  have t6 := TraceWeak_emit _ Action.commit t5 (by intro b; simp)
  unfold create_surface
  cases hS : env.surfaceOk with
  | false =>
    rw [if_pos rfl]
    exact ⟨t1, fun hx => by simp at hx⟩
  | true =>
    rw [if_neg (by decide)]
    cases hX : env.xdgSurfaceOk with
    | false =>
      rw [if_pos rfl]
      exact ⟨t2, fun hx => by simp at hx⟩
    | true =>
      rw [if_neg (by decide)]
      cases hT : env.toplevelOk with
      | false =>
        rw [if_pos rfl]
        exact ⟨t3, fun hx => by simp at hx⟩
      | true =>
        rw [if_neg (by decide)]
        have i4 : InvWeak (emit (emit (emit (emit (emit (emit
            { s with width := w, height := h }
            Action.compositorCreateSurface) Action.getXdgSurface) Action.getToplevel)
            Action.setTitle) (Action.setMinSize w h)) Action.commit) := by
          refine ⟨t6, ?_⟩
          intro b hb
          simp [hbuf] at hb
        have key := create_surface_tail_invWeak _ w h o
          (dispatch_invWeak rt2 _ (dispatch_invWeak rt1 _ i4))
        exact ⟨key.1, fun _ => key⟩

/-! ## Claim about the attached buffer's size -/

/-- C1 (as stated) fails: if, during the start-up roundtrips, a toplevel
configure proposes `(-5, 3)` and its `create_buffer` fails, `create_surface`
creates a `(400, 3)` buffer and attaches it while `wayland.width/height` is
`(-5, 3)`. -/
theorem attach_size_matches_fails :
    (attaches (main true envOk [] [Event.toplevelConfigure (-5) 3 allocFail] allocOk
        []).1.trace)
      = [⟨Action.attach ⟨1, 400, 3⟩, -5, 3⟩] ∧
    ¬ (∀ i ∈ (main true envOk [] [Event.toplevelConfigure (-5) 3 allocFail] allocOk
        []).1.trace, i.attachMatches) := by
  decide

/-- C1 (amended): over every sequence of events, starting from the state set
up by `main` / `create_surface(400,400)`, and for every outcome of each
`create_buffer` call, every `wl_surface_attach` issued while `wayland.width`
and `wayland.height` are both positive attaches a buffer whose creation-time
`(width,height)` equals `wayland.width/height` at the moment of the attach;
when every toplevel-configure event proposes a non-negative width and height,
this holds for every `wl_surface_attach` the program issues. -/
theorem attach_size_matches (initOk : Bool) (env : SurfaceEnv) (rt1 rt2 : List Event)
    (o : Alloc) (batches : List Batch) :
    (∀ i ∈ (main initOk env rt1 rt2 o batches).1.trace, i.attachMatchesIfPositive) ∧
    (sizesNonneg rt1 → sizesNonneg rt2 → (∀ b ∈ batches, sizesNonneg b.events) →
      ∀ i ∈ (main initOk env rt1 rt2 o batches).1.trace, i.attachMatches) := by
  have hcode : (create_surface initState 400 400 env rt1 rt2 o).2 = 0 ∨
      (create_surface initState 400 400 env rt1 rt2 o).2 = -1 := by
    unfold create_surface create_surface_finish
    cases env.surfaceOk <;> cases env.xdgSurfaceOk <;> cases env.toplevelOk <;> simp
    split <;> simp
  unfold main
  cases initOk with
  | false =>
    constructor
    · intro i hi
      simp [initState] at hi
    · intro _ _ _ i hi
      simp [initState] at hi
  | true =>
    simp only [Bool.true_eq_false, if_false]
    by_cases hneg : (create_surface initState 400 400 env rt1 rt2 o).2 < 0
    · rw [if_pos hneg]
      constructor
      · exact (create_surface_invWeak initState 400 400 env rt1 rt2 o rfl
          (by intro i hi; simp [initState] at hi)).1
      · intro h1 h2 _
        exact (create_surface_inv initState 400 400 env rt1 rt2 o (by decide) (by decide) rfl
          (by intro i hi; simp [initState] at hi) h1 h2).1
    · rw [if_neg hneg]
      have hz : (create_surface initState 400 400 env rt1 rt2 o).2 = 0 := by omega
      constructor
      · exact (mainLoop_invWeak batches _
          ((create_surface_invWeak initState 400 400 env rt1 rt2 o rfl
            (by intro i hi; simp [initState] at hi)).2 hz)).1
      · intro h1 h2 h3
        exact (mainLoop_inv batches _ h3
          ((create_surface_inv initState 400 400 env rt1 rt2 o (by decide) (by decide) rfl
            (by intro i hi; simp [initState] at hi) h1 h2).2 hz)).1

/-- Instance of C1 (amended): a resize to `(800,600)` that fails during
start-up, a surface configure, then a resize to `(640,480)` and a surface
configure in the main loop; every attach matches. -/
theorem attach_size_matches_witness :
    (sizesNonneg [Event.toplevelConfigure 800 600 allocFail, Event.surfaceConfigure 1] ∧
      sizesNonneg [] ∧
      ∀ b ∈ [(⟨[Event.toplevelConfigure 640 480 allocOk, Event.surfaceConfigure 2], true⟩
          : Batch)], sizesNonneg b.events) ∧
    ∀ i ∈ (main true envOk
        [Event.toplevelConfigure 800 600 allocFail, Event.surfaceConfigure 1] [] allocOk
        [⟨[Event.toplevelConfigure 640 480 allocOk, Event.surfaceConfigure 2], true⟩]).1.trace,
      i.attachMatches :=
  ⟨by decide,
    (attach_size_matches true envOk
      [Event.toplevelConfigure 800 600 allocFail, Event.surfaceConfigure 1] [] allocOk
      [⟨[Event.toplevelConfigure 640 480 allocOk, Event.surfaceConfigure 2], true⟩]).2
      (by decide) (by decide) (by decide)⟩

end WaylandCircle
